import Mathlib

/-!
Verification of the distributed loyalty-points system (coffee-shop 2PC).

Shallow embedding of the Rust sources:
- `src/server/src/server/transaction.rs` (Transaction, TransactionState,
  older_than, new, prepare, finalize)
- `src/common/points/src/message.rs` (Message wire codec)
- `src/server/src/threadpool/mod.rs` (Builder, ThreadPool sizing)
- `src/coffee_maker/src/orders/point_storage.rs` (PointStorage::send)

Machine integers are modelled as `Nat` (the embedded operations are
comparisons and table lookups, where overflow is immaterial). Fallible
Rust paths return `Except String`; paths that can panic (`todo!`,
a panic on a bad wire tag) are modelled with `Option`, `none` marking
the panic.
-/

/-- OrderAction from the points crate: either fill (add) or use (spend)
a number of points. The point count is a machine integer, modelled as `Nat`. -/
inductive OrderAction where
  | FillPoints (n : Nat)
  | UsePoints (n : Nat)
deriving DecidableEq

/-- OrderAction::points(): the point count carried by the action. -/
def OrderAction.points : OrderAction → Nat
  | .FillPoints n => n
  | .UsePoints n => n

/-- Order: `{client_id: u16, action: OrderAction}` (struct from the points
crate; its fields are those used by `transaction.rs` and the spec). -/
structure Order where
  client_id : Nat
  action : OrderAction
deriving DecidableEq

/-- Message from `src/common/points/src/message.rs`: LockOrder, FreeOrder or
CommitOrder, each carrying an Order. -/
inductive Message where
  | LockOrder (o : Order)
  | FreeOrder (o : Order)
  | CommitOrder (o : Order)
deriving DecidableEq

/-- Message::order(): the Order inside the message. -/
def Message.order : Message → Order
  | .LockOrder o => o
  | .FreeOrder o => o
  | .CommitOrder o => o

/-- From Message for `[u8; 7]` in message.rs: byte 0 is the tag
(1 = LockOrder, 2 = FreeOrder, 3 = CommitOrder), bytes 1..7 are the 6-byte
Order encoding. The Order codec lives in a file not under src/, so it is a
parameter. Buffers are lists of bytes (`Nat`). -/
def messageToBuf (encodeOrder : Order → List Nat) : Message → List Nat
  | .LockOrder o => 1 :: encodeOrder o
  | .FreeOrder o => 2 :: encodeOrder o
  | .CommitOrder o => 3 :: encodeOrder o

/-- From `[u8; 7]` for Message in message.rs: dispatch on the tag byte;
tags 1, 2, 3 yield a message around the decoded Order, any other tag hits
the source's panic branch ("Invalid message"), modelled as `none`. -/
def messageFromBuf (decodeOrder : List Nat → Order) : List Nat → Option Message
  | [] => none
  | t :: rest =>
    if t = 1 then some (Message.LockOrder (decodeOrder rest))
    else if t = 2 then some (Message.FreeOrder (decodeOrder rest))
    else if t = 3 then some (Message.CommitOrder (decodeOrder rest))
    else none

/-- Modelled from the spec: the 6-byte Order codec (the Order wire conversion
is not present in the corpus; only message.rs uses it). The spec fixes
`action_tag ∈ \x7b1=UsePoints, 2=FillPoints\x7d` with big-endian client_id and
points, but its listed fields (1 tag + 1 reserved + 2 client_id + 4 points)
exceed the 6 bytes required by `ORDER_BUFFER_SIZE = 6`; this model drops the
reserved byte and encodes points in 3 big-endian bytes, an "equivalent fixed
layout" as the spec permits. Used only to instantiate codec parameters. -/
def orderEncode (o : Order) : List Nat :=
  let tag : Nat := match o.action with
    | .UsePoints _ => 1
    | .FillPoints _ => 2
  let n := o.action.points
  [tag, o.client_id / 256 % 256, o.client_id % 256,
   n / 65536 % 256, n / 256 % 256, n % 256]

/-- Modelled from the spec: inverse of `orderEncode` (the Order wire
conversion is not present in the corpus). Inputs that are not 6 bytes decode
to a fixed default. -/
def orderDecode (buf : List Nat) : Order :=
  match buf with
  | [tag, c1, c2, p1, p2, p3] =>
    let n := p1 * 65536 + p2 * 256 + p3
    let action := if tag = 2 then OrderAction.FillPoints n else OrderAction.UsePoints n
    { client_id := c1 * 256 + c2, action := action }
  | _ => { client_id := 0, action := OrderAction.UsePoints 0 }

/-- TransactionState from transaction.rs. The declaration order fixes the
Rust discriminants used by `state as u8`: Disconnected = 0, Abort = 1,
Proceed = 2, Timeout = 3. -/
inductive TransactionState where
  | Disconnected
  | Abort
  | Proceed
  | Timeout
deriving DecidableEq

/-- The value of `state as u8` in Rust: the declaration-order discriminant. -/
def transactionStateCode : TransactionState → Nat
  | .Disconnected => 0
  | .Abort => 1
  | .Proceed => 2
  | .Timeout => 3

/-- TransactionAction from transaction.rs. -/
inductive TransactionAction where
  | Add
  | Lock
  | Free
  | Consume
deriving DecidableEq

/-- Transaction from transaction.rs: coordinator address, wall-clock
timestamp in milliseconds (u128, modelled as `Nat`: only compared, never
overflowed), client id, action and point count. -/
structure Transaction where
  coordinator : String
  timestamp : Nat
  client_id : Nat
  action : TransactionAction
  points : Nat
deriving DecidableEq

/-- Transaction::older_than from transaction.rs: timestamp comparison with
lexicographic coordinator tie-break. -/
def Transaction.older_than (self other : Transaction) : Bool :=
  if self.timestamp = other.timestamp then
    decide (self.coordinator < other.coordinator)
  else
    decide (self.timestamp < other.timestamp)

/-- Transaction::new from transaction.rs. The real constructor draws the
timestamp from the wall clock (`generate_timestamp`); here it is a parameter.
The match on (message, order.action) is copied branch for branch. -/
def Transaction.new (coordinator : String) (timestamp : Nat) (msg : Message) :
    Except String Transaction :=
  let err : Except String TransactionAction :=
    Except.error "Invalid message for transaction"
  let actionRes : Except String TransactionAction :=
    match msg with
    | .LockOrder order =>
      match order.action with
      | .FillPoints _ => err
      | .UsePoints _ => Except.ok TransactionAction.Lock
    | .FreeOrder order =>
      match order.action with
      | .FillPoints _ => err
      | .UsePoints _ => Except.ok TransactionAction.Free
    | .CommitOrder order =>
      match order.action with
      | .FillPoints _ => Except.ok TransactionAction.Add
      | .UsePoints _ => Except.ok TransactionAction.Consume
  match actionRes with
  | Except.error e => Except.error e
  | Except.ok action =>
    Except.ok
      { coordinator := coordinator
        timestamp := timestamp
        client_id := msg.order.client_id
        action := action
        points := msg.order.action.points }

/-- PREPARE_TIMEOUT from transaction.rs, in milliseconds. -/
def PREPARE_TIMEOUT : Nat := 1000

/-- COMMIT_TIMEOUT from transaction.rs, in milliseconds. -/
def COMMIT_TIMEOUT : Nat := 3000

/-- Transaction::prepare from transaction.rs, after the connect and
set_read_timeout succeed: the 1-byte vote read. `none` models any failed
read (deadline elapsed or connection dropped); a read byte equal to
`Proceed as u8` yields Proceed, any other byte Abort. Every branch returns
`Ok`. -/
def prepareAfterConnect (readResult : Option Nat) : Except String TransactionState :=
  match readResult with
  | none => Except.ok TransactionState.Timeout
  | some b =>
    if b = transactionStateCode TransactionState.Proceed then
      Except.ok TransactionState.Proceed
    else
      Except.ok TransactionState.Abort

/-- Transaction::finalize from transaction.rs: the byte written to the peer
stream for a verdict. The Timeout and Disconnected branches are `todo` panics
in the source and write nothing, modelled as `none`; Abort and Proceed write
the single byte `state as u8`. -/
def finalize : TransactionState → Option Nat
  | .Abort => some (transactionStateCode TransactionState.Abort)
  | .Proceed => some (transactionStateCode TransactionState.Proceed)
  | .Timeout => none
  | .Disconnected => none

/-- Builder::build from threadpool/mod.rs: the number of worker threads
spawned is the configured `num_threads`, or `num_cpus` when none was set. -/
def builderBuildSize (numThreadsCfg : Option Nat) (numCpus : Nat) : Nat :=
  numThreadsCfg.getD numCpus

/-- Builder::num_threads from threadpool/mod.rs: asserts the count is
positive (`none` models the assertion panic), then records it. -/
def builderNumThreads (n : Nat) : Option Nat :=
  if 0 < n then some n else none

/-- ThreadPool::new from threadpool/mod.rs:
`Builder::new().num_threads(n).build()`. `none` models the
`assert(num_threads > 0)` panic. -/
def threadPoolNew (n : Nat) (numCpus : Nat) : Option Nat :=
  (builderNumThreads n).map (fun cfg => builderBuildSize (some cfg) numCpus)

/-- PointStorage::send from point_storage.rs, after write and read succeed:
the interpretation of the server's 1-byte reply. Reply 0 is an error, any
other byte is success. -/
def pointStorageSendResult (res : Nat) : Except String Unit :=
  if res = 0 then Except.error "Local server returned error" else Except.ok ()

/-- C2: A.older_than(B) is true iff A.timestamp < B.timestamp, or
A.timestamp = B.timestamp and A.coordinator is lexicographically smaller. -/
theorem older_than_iff (a b : Transaction) :
    a.older_than b = true ↔
      (a.timestamp < b.timestamp ∨
        (a.timestamp = b.timestamp ∧ a.coordinator < b.coordinator)) := by
  unfold Transaction.older_than
  by_cases h : a.timestamp = b.timestamp
  · simp [h]
  · simp [h, Nat.lt_irrefl]

/-- C1: older_than is a strict total order: it is irreflexive, and for any
two transactions differing in coordinator or in timestamp exactly one
direction holds. -/
theorem older_than_strict_total :
    (∀ t : Transaction, t.older_than t = false) ∧
    (∀ t1 t2 : Transaction,
      t1.coordinator ≠ t2.coordinator ∨ t1.timestamp ≠ t2.timestamp →
      Xor' (t1.older_than t2 = true) (t2.older_than t1 = true)) := by
  constructor
  · intro t
    simp [Transaction.older_than]
  · intro t1 t2 h
    rcases Nat.lt_trichotomy t1.timestamp t2.timestamp with hlt | heq | hgt
    · exact Or.inl (by
        constructor
        · simp [Transaction.older_than, Nat.ne_of_lt hlt, hlt]
        · simp [Transaction.older_than, Nat.ne_of_gt hlt, Nat.not_lt.mpr (Nat.le_of_lt hlt)])
    · have hc : t1.coordinator ≠ t2.coordinator := by
        rcases h with hc | ht
        · exact hc
        · exact absurd heq ht
      rcases lt_trichotomy t1.coordinator t2.coordinator with hclt | hceq | hcgt
      · exact Or.inl (by
          constructor
          · simp [Transaction.older_than, heq, hclt]
          · simp [Transaction.older_than, heq, not_lt.mpr (le_of_lt hclt)])
      · exact absurd hceq hc
      · exact Or.inr (by
          constructor
          · simp [Transaction.older_than, heq, hcgt]
          · simp [Transaction.older_than, heq, not_lt.mpr (le_of_lt hcgt)])
    · exact Or.inr (by
        constructor
        · simp [Transaction.older_than, Nat.ne_of_lt hgt, hgt]
        · simp [Transaction.older_than, Nat.ne_of_gt hgt, Nat.not_lt.mpr (Nat.le_of_lt hgt)])

/-- C1 witness: for two concrete transactions with equal timestamps and
coordinators "a" < "b", exactly one direction of older_than holds. -/
theorem older_than_strict_total_witness :
    Xor'
      ((Transaction.mk "a" 5 1 TransactionAction.Lock 10).older_than
        (Transaction.mk "b" 5 1 TransactionAction.Lock 10) = true)
      ((Transaction.mk "b" 5 1 TransactionAction.Lock 10).older_than
        (Transaction.mk "a" 5 1 TransactionAction.Lock 10) = true) :=
  older_than_strict_total.2 _ _ (Or.inl (by decide))

/-- C3 counterexample: the claim says finalize writes byte 0 for an Abort
verdict; in the source `TransactionState::Abort as u8` is the Rust
discriminant 1, so finalize writes 1 for Abort, not 0. -/
theorem finalize_abort_not_zero : ¬ finalize TransactionState.Abort = some 0 := by
  decide

/-- C3 amended: the wire bytes are the Rust declaration-order discriminants —
finalize writes byte 1 for an Abort verdict and byte 2 for a Proceed verdict,
and the coordinator's prepare interprets a received vote byte of 2 as Proceed
and any other byte (0 included) as Abort. -/
theorem vote_verdict_encoding :
    finalize TransactionState.Abort = some 1 ∧
    finalize TransactionState.Proceed = some 2 ∧
    (∀ b : Nat, prepareAfterConnect (some b) =
      Except.ok (if b = 2 then TransactionState.Proceed else TransactionState.Abort)) := by
  refine ⟨rfl, rfl, fun b => ?_⟩
  by_cases h : b = 2 <;> simp [prepareAfterConnect, transactionStateCode, h]

/-- C7 counterexample: finalize is not total over the four TransactionState
values; the Timeout branch is a `todo` panic and writes nothing. -/
theorem finalize_timeout_panics : (finalize TransactionState.Timeout).isSome = false := by
  decide

/-- C7 amended: finalize writes exactly one byte — the verdict's encoding —
for the Abort and Proceed verdicts only; the Timeout and Disconnected
branches are `todo` panics in the source, never writing to a stream, so
finalize is defined (returns a written byte) exactly on Abort and Proceed. -/
theorem finalize_writes_only_verdicts :
    (∀ s : TransactionState,
      (finalize s).isSome = true ↔ (s = TransactionState.Abort ∨ s = TransactionState.Proceed)) ∧
    finalize TransactionState.Abort = some (transactionStateCode TransactionState.Abort) ∧
    finalize TransactionState.Proceed = some (transactionStateCode TransactionState.Proceed) := by
  refine ⟨fun s => ?_, rfl, rfl⟩
  cases s <;> simp [finalize]

/-- C8: the vote read deadline is PREPARE_TIMEOUT = 1000 ms; a failed read
(timeout or disconnect) yields the Timeout outcome rather than an error,
every branch of the read phase returns Ok, and a successfully read byte
yields Proceed exactly when it equals the Proceed encoding, Abort for any
other byte. -/
theorem prepare_vote_read :
    PREPARE_TIMEOUT = 1000 ∧
    prepareAfterConnect none = Except.ok TransactionState.Timeout ∧
    (∀ r : Option Nat, ∃ s : TransactionState, prepareAfterConnect r = Except.ok s) ∧
    (∀ b : Nat, prepareAfterConnect (some b) =
      Except.ok (if b = transactionStateCode TransactionState.Proceed then
        TransactionState.Proceed else TransactionState.Abort)) := by
  refine ⟨rfl, rfl, fun r => ?_, fun b => ?_⟩
  · cases r with
    | none => exact ⟨TransactionState.Timeout, rfl⟩
    | some b =>
      by_cases h : b = transactionStateCode TransactionState.Proceed
      · exact ⟨TransactionState.Proceed, by simp [prepareAfterConnect, h]⟩
      · exact ⟨TransactionState.Abort, by simp [prepareAfterConnect, h]⟩
  · by_cases h : b = transactionStateCode TransactionState.Proceed <;>
      simp [prepareAfterConnect, h]

/-- C4: serialization round-trip for Message. For any Order codec pair that
round-trips the embedded order (the Order codec file is not in the corpus)
and encodes it in 6 bytes, decoding the 7-byte encoding of a message gives
back the message. -/
theorem message_roundtrip (encO : Order → List Nat) (decO : List Nat → Order)
    (m : Message) (hdec : decO (encO m.order) = m.order)
    (hlen : (encO m.order).length = 6) :
    (messageToBuf encO m).length = 7 ∧
      messageFromBuf decO (messageToBuf encO m) = some m := by
  cases m with
  | LockOrder o =>
    simp [Message.order] at hdec hlen
    simp [messageToBuf, messageFromBuf, hdec, hlen]
  | FreeOrder o =>
    simp [Message.order] at hdec hlen
    simp [messageToBuf, messageFromBuf, hdec, hlen]
  | CommitOrder o =>
    simp [Message.order] at hdec hlen
    simp [messageToBuf, messageFromBuf, hdec, hlen]

/-- C4 witness: round-trip at a concrete message using the spec-modelled
Order codec. -/
theorem message_roundtrip_witness :
    (messageToBuf orderEncode
        (Message.LockOrder (Order.mk 300 (OrderAction.UsePoints 123)))).length = 7 ∧
      messageFromBuf orderDecode
        (messageToBuf orderEncode
          (Message.LockOrder (Order.mk 300 (OrderAction.UsePoints 123)))) =
        some (Message.LockOrder (Order.mk 300 (OrderAction.UsePoints 123))) :=
  message_roundtrip orderEncode orderDecode
    (Message.LockOrder (Order.mk 300 (OrderAction.UsePoints 123)))
    (by decide) (by decide)

/-- C5: Transaction::new implements the action table — LockOrder/UsePoints
gives Lock, FreeOrder/UsePoints gives Free, CommitOrder/FillPoints gives Add,
CommitOrder/UsePoints gives Consume — errors exactly on LockOrder/FillPoints
and FreeOrder/FillPoints, and on success carries the given coordinator, the
order's client id and the order's point count. The six equations cover every
(message, order.action) combination. -/
theorem transaction_new_table (c : String) (ts : Nat) (id n : Nat) :
    Transaction.new c ts (Message.LockOrder (Order.mk id (OrderAction.UsePoints n))) =
      Except.ok (Transaction.mk c ts id TransactionAction.Lock n) ∧
    Transaction.new c ts (Message.FreeOrder (Order.mk id (OrderAction.UsePoints n))) =
      Except.ok (Transaction.mk c ts id TransactionAction.Free n) ∧
    Transaction.new c ts (Message.CommitOrder (Order.mk id (OrderAction.FillPoints n))) =
      Except.ok (Transaction.mk c ts id TransactionAction.Add n) ∧
    Transaction.new c ts (Message.CommitOrder (Order.mk id (OrderAction.UsePoints n))) =
      Except.ok (Transaction.mk c ts id TransactionAction.Consume n) ∧
    Transaction.new c ts (Message.LockOrder (Order.mk id (OrderAction.FillPoints n))) =
      Except.error "Invalid message for transaction" ∧
    Transaction.new c ts (Message.FreeOrder (Order.mk id (OrderAction.FillPoints n))) =
      Except.error "Invalid message for transaction" :=
  ⟨rfl, rfl, rfl, rfl, rfl, rfl⟩

/-- C6 counterexample: message deserialization is not total — a 7-byte buffer
with tag byte 0 hits the source's panic branch (modelled `none`) instead of
yielding an InvalidMessage error value. -/
theorem messageFromBuf_tag_zero_panics :
    messageFromBuf orderDecode [0, 0, 0, 0, 0, 0, 0] = none := by
  decide

/-- C6 amended: for a 7-byte buffer, deserialization succeeds exactly when
the tag byte is 1, 2 or 3; any other tag byte reaches the source's panic
branch ("Invalid message") rather than returning an InvalidMessage error
value, so totality holds only on tags 1..3. -/
theorem messageFromBuf_some_iff (decO : List Nat → Order) (t : Nat) (rest : List Nat) :
    (messageFromBuf decO (t :: rest)).isSome = true ↔ (t = 1 ∨ t = 2 ∨ t = 3) := by
  simp only [messageFromBuf]
  split_ifs with h1 h2 h3 <;> simp_all

/-- C9 counterexample: the pool dimension is not always at least num_cpus —
a pool explicitly configured with 1 thread on a 2-cpu machine has dimension
1 < 2. -/
theorem pool_size_below_num_cpus : threadPoolNew 1 2 = some 1 ∧ 1 < 2 := by
  constructor
  · rfl
  · decide

/-- C9 amended: when no thread count is configured the pool is built with
exactly num_cpus threads; ThreadPool::new(n) requires n positive (the
assertion panics on 0) and yields a pool of exactly n threads — which may be
smaller than num_cpus. -/
theorem pool_size_spec :
    (∀ cpus : Nat, builderBuildSize none cpus = cpus) ∧
    (∀ n cpus : Nat, threadPoolNew (n + 1) cpus = some (n + 1)) ∧
    (∀ cpus : Nat, threadPoolNew 0 cpus = none) := by
  refine ⟨fun cpus => rfl, fun n cpus => ?_, fun cpus => rfl⟩
  simp [threadPoolNew, builderNumThreads, builderBuildSize]

/-- C10: the coffee maker's send errors exactly on reply byte 0; every
nonzero reply byte, not only 1, is treated as success. -/
theorem point_storage_send_reply :
    pointStorageSendResult 0 = Except.error "Local server returned error" ∧
    (∀ b : Nat, pointStorageSendResult (b + 1) = Except.ok ()) ∧
    (∀ b : Nat, pointStorageSendResult b = Except.ok () ↔ b ≠ 0) := by
  refine ⟨rfl, fun b => ?_, fun b => ?_⟩
  · simp [pointStorageSendResult]
  · by_cases h : b = 0 <;> simp [pointStorageSendResult, h]
